import Mathlib

/-!
Verification of the cpsc323 lexer (src/src/main.rs).

The character cursor is modelled as a `List Char`; `lexer` returns the scan
result together with the remaining (unconsumed) characters, so claims about
consumption are statable.  The loop body of `fn lexer` is factored into the
single-peek dispatch `step`; `lexerLoop` iterates it, and `basic` is the
finalization/classification function, all translated branch for branch from
the Rust source.
-/

namespace CPSC323

/-- `enum States` from the source. -/
inductive States where
  | Start
  | DefiningIdentifier
  | DefiningInteger
  | DefiningReal
deriving DecidableEq, Repr

/-- `enum TokenType` from the source. -/
inductive TokenType where
  | Identifier
  | Number
  | Real
  | Separator
  | Operator
  | Keyword
deriving DecidableEq, Repr

/-- `struct Token` from the source. -/
structure Token where
  ty : TokenType
  lex : String
deriving DecidableEq, Repr

/-- `enum LexerError` from the source. -/
inductive LexerError where
  | IllegalDot
  | InternalStateError
  | InvalidIdentifier
  | Eof
deriving DecidableEq, Repr

deriving instance DecidableEq for Except

/-- Whitespace class: the `' ' | '\t' | '\r' | '\n'` match arm. -/
def ws (c : Char) : Bool :=
  c == ' ' || c == '\t' || c == '\r' || c == '\n'

/-- Separator class: the `'(' | ')' | ';'` match arm. -/
def sep (c : Char) : Bool :=
  c == '(' || c == ')' || c == ';'

/-- Operator class: the `'<' | '>' | '='` match arm. -/
def op (c : Char) : Bool :=
  c == '<' || c == '>' || c == '='

/-- Digit class: the `'0' | '1' | ... | '9'` match arm. -/
def digit (c : Char) : Bool :=
  c == '0' || c == '1' || c == '2' || c == '3' || c == '4' ||
  c == '5' || c == '6' || c == '7' || c == '8' || c == '9'

/-- `fn basic(st, lexeme)`: classify a finished lexeme. -/
def basic (st : States) (lexeme : String) : Except LexerError Token :=
  match st with
  | .Start => .error .InternalStateError
  | .DefiningIdentifier =>
      if lexeme = "while" then .ok ⟨.Keyword, lexeme⟩
      else .ok ⟨.Identifier, lexeme⟩
  | .DefiningInteger => .ok ⟨.Number, lexeme⟩
  | .DefiningReal => .ok ⟨.Real, lexeme⟩

/-- Outcome of one iteration of the scan loop after peeking a character. -/
inductive StepOut where
  | cont (st : States) (lexeme : String)
  | token (t : Token)
  | finalize (consumed : Bool)
  | fail (e : LexerError) (consumed : Bool)
deriving DecidableEq, Repr

/-- One iteration of the `loop` in `fn lexer`, dispatching on the peeked
character `c` exactly as the Rust `match c` does.  `consumed` records whether
`chas.next()` ran on `c` before the branch returned. -/
def step (st : States) (lexeme : String) (c : Char) : StepOut :=
  if ws c then
    match st with
    | .Start => .cont .Start lexeme
    | _ => .finalize true
  else if c = '.' then
    match st with
    | .DefiningInteger => .cont .DefiningReal (lexeme.push '.')
    | _ => .fail .IllegalDot false
  else if sep c then
    match st with
    | .Start => .token ⟨.Separator, String.singleton c⟩
    | _ => .finalize false
  else if op c then
    match st with
    | .Start => .token ⟨.Operator, String.singleton c⟩
    | _ => .finalize false
  else if digit c then
    .cont (match st with | .Start => .DefiningInteger | s => s) (lexeme.push c)
  else
    match st with
    | .Start => .cont .DefiningIdentifier (lexeme.push c)
    | .DefiningIdentifier => .cont .DefiningIdentifier (lexeme.push c)
    | _ => .fail .InvalidIdentifier true

/-- The `loop` of `fn lexer`: iterate `step` until a result is produced.
Returns the result and the unconsumed remainder of the cursor. -/
def lexerLoop : States → String → List Char → Except LexerError Token × List Char
  | st, lexeme, [] =>
      match st with
      | .Start => (.error .Eof, [])
      | _ => (basic st lexeme, [])
  | st, lexeme, c :: cs =>
      match step st lexeme c with
      | .cont st' lexeme' => lexerLoop st' lexeme' cs
      | .token t => (.ok t, cs)
      | .finalize true => (basic st lexeme, cs)
      | .finalize false => (basic st lexeme, c :: cs)
      | .fail e true => (.error e, cs)
      | .fail e false => (.error e, c :: cs)

/-- `fn lexer(chas)`: scan one token from the front of the cursor. -/
def lexer (cs : List Char) : Except LexerError Token × List Char :=
  lexerLoop .Start "" cs

/-- Number of iterations the `loop` of `fn lexer` performs on the given
cursor, mirroring `lexerLoop` iteration for iteration: each list node costs
one peek, and reaching the end of the stream costs one final peek. -/
def lexerLoopCount : States → String → List Char → Nat
  | _, _, [] => 1
  | st, l, c :: cs =>
      match step st l c with
      | .cont st' l' => 1 + lexerLoopCount st' l' cs
      | _ => 1

/-- Debug rendering of a `TokenType`, as the driver's `writeln` prints it. -/
def kindName : TokenType → String
  | .Identifier => "Identifier"
  | .Number => "Number"
  | .Real => "Real"
  | .Separator => "Separator"
  | .Operator => "Operator"
  | .Keyword => "Keyword"

/-- Right-alignment to a minimum width by space padding, as the width-10
right-align format specifier in `fn main` does. -/
def padLeft (w : Nat) (s : String) : String :=
  String.mk (List.replicate (w - s.length) ' ') ++ s

/-- The output line `fn main` writes for one token. -/
def formatLine (t : Token) : String :=
  padLeft 10 (kindName t.ty) ++ " = " ++ t.lex

/-- The output line as the spec words it, with an UPPERCASE kind label
(spec section 6 calls for an uppercase kind label); declared only to be
compared against `formatLine`, which is what the source actually emits. -/
def formatLineUpper (t : Token) : String :=
  padLeft 10 (String.mk ((kindName t.ty).data.map Char.toUpper)) ++ " = " ++ t.lex

/-- Process exit status chosen by `fn main` upon a lexer error. -/
def exitCode (e : LexerError) : Nat :=
  if e = .Eof then 0 else 1

/-! ## Helper lemmas -/

/-- The scan loop only finalizes when the phase has left `Start`. -/
theorem step_finalize_ne_start {st : States} {l : String} {c : Char} {b : Bool}
    (h : step st l c = .finalize b) : st ≠ .Start := by
  intro hst
  subst hst
  unfold step at h
  split_ifs at h

/-- The scan loop itself only fails with `IllegalDot` or `InvalidIdentifier`,
never with `InternalStateError`. -/
theorem step_fail_not_internal {st : States} {l : String} {c : Char}
    {e : LexerError} {b : Bool} (h : step st l c = .fail e b) :
    e ≠ .InternalStateError := by
  intro he
  subst he
  unfold step at h
  split_ifs at h <;> cases st <;> simp_all

/-- `basic` only reports `InternalStateError` when called from `Start`. -/
theorem basic_no_internal {st : States} {l : String} (h : st ≠ .Start) :
    basic st l ≠ .error .InternalStateError := by
  cases st with
  | Start => exact absurd rfl h
  | DefiningIdentifier => by_cases hw : l = "while" <;> simp [basic, hw]
  | DefiningInteger => simp [basic]
  | DefiningReal => simp [basic]

/-- No run of the scan loop, from any state, yields `InternalStateError`. -/
theorem lexerLoop_no_internal :
    ∀ (cs : List Char) (st : States) (l : String),
    (lexerLoop st l cs).1 ≠ .error .InternalStateError := by
  intro cs
  induction cs with
  | nil =>
      intro st l
      cases st with
      | Start => simp [lexerLoop]
      | DefiningIdentifier =>
          simpa [lexerLoop] using basic_no_internal (l := l) (by simp)
      | DefiningInteger =>
          simpa [lexerLoop] using basic_no_internal (l := l) (by simp)
      | DefiningReal =>
          simpa [lexerLoop] using basic_no_internal (l := l) (by simp)
  | cons c cs ih =>
      intro st l
      show (match step st l c with
        | .cont st' lexeme' => lexerLoop st' lexeme' cs
        | .token t => (.ok t, cs)
        | .finalize true => (basic st l, cs)
        | .finalize false => (basic st l, c :: cs)
        | .fail e true => (.error e, cs)
        | .fail e false => (.error e, c :: cs)).1 ≠ .error .InternalStateError
      cases hstep : step st l c with
      | cont st' l' => exact ih st' l'
      | token t => simp
      | finalize b =>
          have hne := step_finalize_ne_start hstep
          cases b <;> simpa using basic_no_internal (l := l) hne
      | fail e b =>
          have hne := step_fail_not_internal hstep
          cases b <;> simpa using hne

/-- The loop runs at most one iteration more than the cursor has characters:
every iteration either returns or consumes one character. -/
theorem lexerLoopCount_le :
    ∀ (cs : List Char) (st : States) (l : String),
    lexerLoopCount st l cs ≤ cs.length + 1 := by
  intro cs
  induction cs with
  | nil => intro st l; simp [lexerLoopCount]
  | cons c cs ih =>
      intro st l
      show (match step st l c with
        | .cont st' l' => 1 + lexerLoopCount st' l' cs
        | _ => 1) ≤ (c :: cs).length + 1
      cases step st l c with
      | cont st' l' =>
          have h := ih st' l'
          show 1 + lexerLoopCount st' l' cs ≤ cs.length + 1 + 1
          omega
      | token t => exact Nat.le_add_left 1 _
      | finalize b => exact Nat.le_add_left 1 _
      | fail e b => exact Nat.le_add_left 1 _

/-- Scanning an all-whitespace cursor stays in `Start`, skipping every
character, and ends with `Eof`. -/
theorem lexerLoop_ws_only :
    ∀ (cs : List Char) (l : String), (∀ c ∈ cs, ws c = true) →
    lexerLoop .Start l cs = (.error .Eof, []) := by
  intro cs
  induction cs with
  | nil => intro l _; rfl
  | cons c cs ih =>
      intro l h
      have hc : ws c = true := h c (by simp)
      have hstep : step .Start l c = .cont .Start l := by
        unfold step
        rw [if_pos hc]
      simp only [lexerLoop, hstep]
      exact ih l (fun x hx => h x (by simp [hx]))

/-! ## Claims -/

/-- C1 (counterexample): the first call on `"while (x < 10) ;"` yields
Keyword("while") but does not consume exactly the five characters of the
token (there is no preceding whitespace): it also consumes the terminating
space, so the remainder is `"(x < 10) ;"`, not `" (x < 10) ;"`. -/
theorem c1_consumption_counterexample :
    (lexer "while (x < 10) ;".toList).1 = .ok ⟨.Keyword, "while"⟩ ∧
    (lexer "while (x < 10) ;".toList).2 ≠ " (x < 10) ;".toList := by
  decide

/-- C1 (amended): sequential calls over `"while (x < 10) ;"` yield, in
order, Keyword("while"), Separator("("), Identifier("x"), Operator("<"),
Number("10"), Separator(")"), Separator(";"), then Eof; each call consumes
the characters of its token, any whitespace skipped before it, and — when
the token is terminated by whitespace — the single terminating whitespace
character, as the explicit remainders show. -/
theorem c1_token_sequence :
    lexer "while (x < 10) ;".toList = (.ok ⟨.Keyword, "while"⟩, "(x < 10) ;".toList) ∧
    lexer "(x < 10) ;".toList = (.ok ⟨.Separator, "("⟩, "x < 10) ;".toList) ∧
    lexer "x < 10) ;".toList = (.ok ⟨.Identifier, "x"⟩, "< 10) ;".toList) ∧
    lexer "< 10) ;".toList = (.ok ⟨.Operator, "<"⟩, " 10) ;".toList) ∧
    lexer " 10) ;".toList = (.ok ⟨.Number, "10"⟩, ") ;".toList) ∧
    lexer ") ;".toList = (.ok ⟨.Separator, ")"⟩, " ;".toList) ∧
    lexer " ;".toList = (.ok ⟨.Separator, ";"⟩, []) ∧
    lexer ([] : List Char) = (.error .Eof, []) := by
  decide

/-- C2 (counterexample): `lexer "1a"` does fail with InvalidIdentifier, but
the offending character is consumed before the failure (`chas.next()` runs
before the state check in the fallback arm), so the remainder is empty, not
`"a"`. -/
theorem c2_consumes_counterexample :
    (lexer "1a".toList).1 = .error .InvalidIdentifier ∧
    (lexer "1a".toList).2 ≠ ['a'] := by
  decide

/-- C2 (amended): whenever the peeked character falls in the fallback
(identifier-continuation) class while the phase is DefiningInteger or
DefiningReal, the scan fails with InvalidIdentifier after consuming exactly
that offending character; in particular `lexer "1a"` fails with
InvalidIdentifier. -/
theorem c2_invalid_continuation :
    (∀ (st : States) (l : String) (c : Char) (cs : List Char),
      ws c = false → c ≠ '.' → sep c = false → op c = false → digit c = false →
      st = .DefiningInteger ∨ st = .DefiningReal →
      lexerLoop st l (c :: cs) = (.error .InvalidIdentifier, cs)) ∧
    lexer "1a".toList = (.error .InvalidIdentifier, []) := by
  refine ⟨?_, by decide⟩
  intro st l c cs hws hdot hsep hop hdig hst
  have hstep : step st l c = .fail .InvalidIdentifier true := by
    unfold step
    rw [if_neg (by simp [hws]), if_neg hdot, if_neg (by simp [hsep]),
      if_neg (by simp [hop]), if_neg (by simp [hdig])]
    rcases hst with rfl | rfl <;> rfl
  simp only [lexerLoop, hstep]

/-- C2 (witness): the amended theorem applied at phase DefiningReal on the
peeked character z. -/
theorem c2_invalid_continuation_witness :
    lexerLoop .DefiningReal "1." ['z'] = (.error .InvalidIdentifier, []) :=
  c2_invalid_continuation.1 .DefiningReal "1." 'z' [] (by decide) (by decide)
    (by decide) (by decide) (by decide) (Or.inr rfl)

/-- C3 (counterexample): `lexer "123.45.6"` does fail with IllegalDot, but
the second dot is not consumed (the dot arm returns the error without
calling `chas.next()`), so the remainder is `".6"`, not `"6"`. -/
theorem c3_second_dot_counterexample :
    (lexer "123.45.6".toList).1 = .error .IllegalDot ∧
    (lexer "123.45.6".toList).2 ≠ ['6'] := by
  decide

/-- C3 (amended): `lexer "123.45.6"` fails with IllegalDot having consumed
the input through the digit before the second dot; the cursor still points
at the second dot at the moment of failure. -/
theorem c3_second_dot :
    lexer "123.45.6".toList = (.error .IllegalDot, '.' :: ['6']) := by
  decide

/-- C4: peeking a dot while the phase is Start, DefiningIdentifier or
DefiningReal fails with IllegalDot and leaves the dot unconsumed; a dot
peeked while the phase is DefiningInteger is consumed, appended, and moves
the phase to DefiningReal; and that dot transition is the only way any
iteration of the scan loop can enter DefiningReal. -/
theorem c4_dot_dispatch :
    (∀ (st : States) (l : String) (cs : List Char),
      st = .Start ∨ st = .DefiningIdentifier ∨ st = .DefiningReal →
      lexerLoop st l ('.' :: cs) = (.error .IllegalDot, '.' :: cs)) ∧
    (∀ (l : String) (cs : List Char),
      lexerLoop .DefiningInteger l ('.' :: cs) =
        lexerLoop .DefiningReal (l.push '.') cs) ∧
    (∀ (st : States) (l l' : String) (c : Char),
      step st l c = .cont .DefiningReal l' → st ≠ .DefiningReal →
      st = .DefiningInteger ∧ c = '.' ∧ l' = l.push '.') := by
  refine ⟨?_, fun l cs => rfl, ?_⟩
  · intro st l cs hst
    rcases hst with rfl | rfl | rfl <;> rfl
  · intro st l l' c hstep hne
    unfold step at hstep
    split_ifs at hstep <;> cases st <;> simp_all

/-- C4 (witness): the dot dispatch at concrete inputs — a second dot inside
a real is rejected in place, a dot after the integer 1 is consumed into the
lexeme, and the step that entered DefiningReal came from DefiningInteger on
a dot. -/
theorem c4_dot_dispatch_witness :
    lexerLoop .DefiningReal "1." ('.' :: ['6']) = (.error .IllegalDot, '.' :: ['6']) ∧
    lexerLoop .DefiningInteger "1" ['.'] = lexerLoop .DefiningReal ("1".push '.') [] ∧
    (States.DefiningInteger = .DefiningInteger ∧ '.' = '.' ∧
      "1".push '.' = "1".push '.') :=
  ⟨c4_dot_dispatch.1 .DefiningReal "1." ['6'] (Or.inr (Or.inr rfl)),
   c4_dot_dispatch.2.1 "1" [],
   c4_dot_dispatch.2.2 .DefiningInteger "1" ("1".push '.') '.' (by decide) (by decide)⟩

/-- C5: keyword classification is an exact-text match applied at finalize
time to identifier-phase lexemes: "while" classifies as Keyword, any other
identifier-phase lexeme classifies as Identifier, and scanning "while" and
"whilex" to exhaustion yields Keyword("while") and Identifier("whilex"). -/
theorem c5_keyword_exact :
    basic .DefiningIdentifier "while" = .ok ⟨.Keyword, "while"⟩ ∧
    (∀ l : String, l ≠ "while" →
      basic .DefiningIdentifier l = .ok ⟨.Identifier, l⟩) ∧
    lexer "while".toList = (.ok ⟨.Keyword, "while"⟩, []) ∧
    lexer "whilex".toList = (.ok ⟨.Identifier, "whilex"⟩, []) := by
  refine ⟨rfl, ?_, by decide, by decide⟩
  intro l hl
  simp [basic, hl]

/-- C5 (witness): the non-keyword branch applied at the lexeme "whilex". -/
theorem c5_keyword_exact_witness :
    basic .DefiningIdentifier "whilex" = .ok ⟨.Identifier, "whilex"⟩ :=
  c5_keyword_exact.2.1 "whilex" (by decide)

/-- C6: exhaustion while still in Start returns Eof (in particular on any
all-whitespace input, with every character consumed); exhaustion in any
other phase finalizes the pending lexeme exactly as `basic` classifies it,
so "123" scans to Number("123") and "123.45" to Real("123.45"). -/
theorem c6_end_of_stream :
    (∀ l : String, lexerLoop .Start l [] = (.error .Eof, [])) ∧
    (∀ cs : List Char, (∀ c ∈ cs, ws c = true) → lexer cs = (.error .Eof, [])) ∧
    (∀ (st : States) (l : String), st ≠ .Start →
      lexerLoop st l [] = (basic st l, [])) ∧
    lexer "123".toList = (.ok ⟨.Number, "123"⟩, []) ∧
    lexer "123.45".toList = (.ok ⟨.Real, "123.45"⟩, []) := by
  refine ⟨fun l => rfl, fun cs h => lexerLoop_ws_only cs "" h, ?_, by decide, by decide⟩
  intro st l hst
  cases st with
  | Start => exact absurd rfl hst
  | DefiningIdentifier => rfl
  | DefiningInteger => rfl
  | DefiningReal => rfl

/-- C6 (witness): Eof on a whitespace-only cursor and finalization of a
pending integer lexeme at end of stream. -/
theorem c6_end_of_stream_witness :
    lexer [' ', '\t'] = (.error .Eof, []) ∧
    lexerLoop .DefiningInteger "7" [] = (basic .DefiningInteger "7", []) :=
  ⟨c6_end_of_stream.2.1 [' ', '\t'] (by decide),
   c6_end_of_stream.2.2.1 .DefiningInteger "7" (by decide)⟩

/-- C7: no input whatsoever can make the lexer return InternalStateError:
`basic` is only ever invoked from the scan loop with a phase other than
Start, so its Start error branch is unreachable. -/
theorem c7_no_internal_state_error (cs : List Char) :
    (lexer cs).1 ≠ .error .InternalStateError :=
  lexerLoop_no_internal cs .Start ""

/-- C8: the scan loop terminates on every finite input: its number of
iterations is bounded by the length of the remaining input plus one, since
every iteration either returns or consumes one character. -/
theorem c8_loop_bounded (cs : List Char) :
    lexerLoopCount .Start "" cs ≤ cs.length + 1 :=
  lexerLoopCount_le cs .Start ""

/-- C9 (counterexample): the driver's line for the token Number("10") spells
the kind as the capitalized Debug name "Number", not the uppercase label
"NUMBER" that the claim describes. -/
theorem c9_uppercase_counterexample :
    formatLine ⟨.Number, "10"⟩ = "    Number = 10" ∧
    formatLine ⟨.Number, "10"⟩ ≠ formatLineUpper ⟨.Number, "10"⟩ := by
  decide

/-- C9 (amended): for each token the driver emits one line made of the
token kind's capitalized Debug name right-aligned to width 10, then " = ",
then the literal lexeme; Eof terminates with success status 0, and every
other lexer error terminates with failure status 1. -/
theorem c9_driver_output :
    formatLine ⟨.Number, "10"⟩ = "    Number = 10" ∧
    formatLine ⟨.Identifier, "x"⟩ = "Identifier = x" ∧
    formatLine ⟨.Keyword, "while"⟩ = "   Keyword = while" ∧
    formatLine ⟨.Separator, "("⟩ = " Separator = (" ∧
    formatLine ⟨.Operator, "<"⟩ = "  Operator = <" ∧
    formatLine ⟨.Real, "1."⟩ = "      Real = 1." ∧
    exitCode .Eof = 0 ∧
    (∀ e : LexerError, e ≠ .Eof → exitCode e = 1) := by
  refine ⟨by decide, by decide, by decide, by decide, by decide, by decide, rfl, ?_⟩
  intro e he
  simp [exitCode, he]

/-- C9 (witness): the failure status for the IllegalDot error. -/
theorem c9_driver_output_witness : exitCode .IllegalDot = 1 :=
  c9_driver_output.2.2.2.2.2.2.2 .IllegalDot (by decide)

/-- C10: a real token needs no digits after the dot: `lexer "1."` yields
Real("1."), and exhaustion any time after the dot transition finalizes the
pending lexeme as a Real. -/
theorem c10_trailing_dot_real :
    lexer "1.".toList = (.ok ⟨.Real, "1."⟩, []) ∧
    (∀ l : String, lexerLoop .DefiningInteger l ['.'] =
      (.ok ⟨.Real, l.push '.'⟩, [])) ∧
    (∀ l : String, lexerLoop .DefiningReal l [] = (.ok ⟨.Real, l⟩, [])) :=
  ⟨by decide, fun l => rfl, fun l => rfl⟩

end CPSC323
